import Mathlib

/-!
# Port forwarding and endpoint resolution of the VPN gateway client

A shallow embedding of

* `internal/provider/protonvpn/portforward.go`
  (`PortForward`, `checkLifetime`, `checkExternalPorts`, `KeepPortForward`),
* `internal/provider/torguard/connection.go` (`GetOpenVPNConnection`).

Effects are made explicit.  The NAT-PMP client, the context and the timer are
an environment `World σ` threaded through the code as a state of type `σ`;
everything the code does to the outside (client calls with their replies,
log lines, timer arming, the outcome of each `select`) is appended to a trace
of `Event`s, in program order.
-/

namespace Gluetun

/-! ## Values shared by both providers -/

/-- Go `time.Duration`: a signed count of nanoseconds. -/
abbrev Duration := Int

/-- Go `time.Second`. -/
def Second : Duration := 1000000000

/-- Zone marker of a Go `netip.Addr`; `z0` marks the zero `Addr`, `z4` an IPv4
address, `z6noz` an IPv6 address without zone, `z6` one with a zone. -/
inductive Zone where
  | z0
  | z4
  | z6noz
  | z6 (zone : String)
  deriving DecidableEq, Repr

/-- Go `netip.Addr`: a 128-bit value (two 64-bit halves) and a zone marker. -/
structure Addr where
  hi : Nat
  lo : Nat
  z : Zone
  deriving DecidableEq, Repr

/-- Go `netip.Addr.IsValid`: the address is initialized, that is, it is not the
zero `Addr`.  The unspecified addresses `0.0.0.0` and `::` are valid. -/
def Addr.IsValid (ip : Addr) : Bool :=
  ip.z != Zone.z0

/-- Go `netip.IPv4Unspecified`: the address `0.0.0.0` (IPv4 addresses are kept
in the low 32 bits under the `ffff` marker). -/
def IPv4Unspecified : Addr := ⟨0, 0xffff00000000, Zone.z4⟩

/-- Go `netip.IPv6Unspecified`: the address `::`. -/
def IPv6Unspecified : Addr := ⟨0, 0, Zone.z6noz⟩

/-- Go `netip.Addr.IsUnspecified`: the address is `0.0.0.0` or `::`. -/
def Addr.IsUnspecified (ip : Addr) : Bool :=
  decide (ip = IPv4Unspecified) || decide (ip = IPv6Unspecified)

/-- Go errors that occur in the embedded code.  `wrap msg inner` is
`fmt.Errorf(msg + ": %w", inner)` (for an empty `msg`, `fmt.Errorf("%w", inner)`);
`other` is any error raised inside the NAT-PMP client. -/
inductive Error where
  | ErrGatewayIPNotValid
  | Canceled
  | DeadlineExceeded
  | ErrNoServerFound
  | ErrTargetIPNotFound
  | other (text : String)
  | wrap (msg : String) (inner : Error)
  deriving DecidableEq, Repr

/-- Go `errors.Is`: the target is found along the chain of wrapped errors. -/
def Error.Is : Error → Error → Bool
  | Error.wrap msg inner, target =>
      decide (Error.wrap msg inner = target) || Error.Is inner target
  | e, target => decide (e = target)

/-! ## The NAT-PMP client, the logger and the trace -/

/-- Successful result of the client's `AddPortMapping`. -/
structure Mapping where
  durationSinceStartOfEpoch : Duration
  assignedInternalPort : Nat
  assignedExternalPort : Nat
  assignedLifetime : Duration
  deriving DecidableEq, Repr

/-- Outcome of a fallible call: Go's `(value, err)` pair. -/
inductive Reply (α : Type) where
  | ok (value : α)
  | failed (err : Error)
  deriving DecidableEq, Repr

/-- Log lines, kept structured: each constructor is one format string of the
source together with its arguments.
* `externalIPv4 a`: `"gateway external IPv4 address is " + a.String()`
* `lifetimeDiffers p actual requested`:
  `"assigned %s port lifetime %s differs from requested lifetime %s"`
* `portsDiffer udp tcp`: `"UDP external port %d differs from TCP external port %d"`
* `keepLifetimeDiffers actual requested`:
  `"assigned lifetime %s differs from requested lifetime %s"`
* `portChanged old new`: `"external port assigned %d changed to %d"` -/
inductive Msg where
  | externalIPv4 (address : Addr)
  | lifetimeDiffers (protocol : String) (actual requested : Duration)
  | portsDiffer (udpPort tcpPort : Nat)
  | keepLifetimeDiffers (actual requested : Duration)
  | portChanged (old new : Nat)
  deriving DecidableEq, Repr

/-- What the code does to the outside, in program order. -/
inductive Event where
  | ExternalAddress (gateway : Addr) (reply : Reply (Duration × Addr))
  | AddPortMapping (gateway : Addr) (protocol : String)
      (internalPort requestedExternalPort : Nat) (lifetime : Duration)
      (reply : Reply Mapping)
  | Info (msg : Msg)
  | Warn (msg : Msg)
  | Timer (d : Duration)
  | Select (done : Option Error)
  deriving DecidableEq, Repr

/-- The environment of the port-forwarding code, over a state `σ` that holds
the gateway, the context and the clock.
* `ExternalAddress`, `AddPortMapping`: the NAT-PMP client's two calls (the
  context is part of the state).
* `Select`: the blocking `select` between `ctx.Done()` and the timer channel;
  `some e` when the `ctx.Done()` case is taken, with `e` the value of
  `ctx.Err()`, and `none` when the timer case is taken. -/
structure World (σ : Type) where
  ExternalAddress : σ → Addr → σ × Reply (Duration × Addr)
  AddPortMapping : σ → Addr → String → Nat → Nat → Duration → σ × Reply Mapping
  Select : σ → σ × Option Error

/-! ## `PortForward` -/

/-- Result of `PortForward`: Go's `(port, err)` with the final environment state
and the trace of the call. -/
structure PortForwardResult (σ : Type) where
  state : σ
  trace : List Event
  port : Nat
  err : Option Error

/-- Go `strings.ToUpper`, on the ASCII letters (all the source passes to it). -/
def ToUpper (s : String) : String :=
  String.mk (s.data.map Char.toUpper)

/-- Source `checkLifetime`: one warning when the lifetimes differ. -/
def checkLifetime (protocol : String) (requested actual : Duration) : List Event :=
  if requested ≠ actual then
    [Event.Warn (Msg.lifetimeDiffers (ToUpper protocol) actual requested)]
  else []

/-- Source `checkExternalPorts`: one warning when the ports differ. -/
def checkExternalPorts (udpPort tcpPort : Nat) : List Event :=
  if udpPort ≠ tcpPort then [Event.Warn (Msg.portsDiffer udpPort tcpPort)] else []

/-- Constant `lifetime` of both functions: `60 * time.Second`. -/
def lifetime : Duration := 60 * Second

/-- Source `Provider.PortForward`, with `internalPort, externalPort = 0, 0`. -/
def PortForward {σ : Type} (w : World σ) (s : σ) (gateway : Addr) :
    PortForwardResult σ :=
  if !gateway.IsValid then
    ⟨s, [], 0, some (Error.wrap "" Error.ErrGatewayIPNotValid)⟩
  else
    match w.ExternalAddress s gateway with
    | (s1, Reply.failed err) =>
        ⟨s1, [Event.ExternalAddress gateway (Reply.failed err)], 0,
          some (Error.wrap "getting external IPv4 address" err)⟩
    | (s1, Reply.ok (epoch, externalIPv4Address)) =>
        let t1 : List Event :=
          [Event.ExternalAddress gateway (Reply.ok (epoch, externalIPv4Address)),
           Event.Info (Msg.externalIPv4 externalIPv4Address)]
        match w.AddPortMapping s1 gateway "udp" 0 0 lifetime with
        | (s2, Reply.failed err) =>
            ⟨s2, t1 ++ [Event.AddPortMapping gateway "udp" 0 0 lifetime (Reply.failed err)],
              0, some (Error.wrap "adding UDP port mapping" err)⟩
        | (s2, Reply.ok udp) =>
            let t2 : List Event :=
              t1 ++ [Event.AddPortMapping gateway "udp" 0 0 lifetime (Reply.ok udp)]
                ++ checkLifetime "UDP" lifetime udp.assignedLifetime
            match w.AddPortMapping s2 gateway "tcp" 0 0 lifetime with
            | (s3, Reply.failed err) =>
                ⟨s3, t2 ++ [Event.AddPortMapping gateway "tcp" 0 0 lifetime (Reply.failed err)],
                  0, some (Error.wrap "adding TCP port mapping" err)⟩
            | (s3, Reply.ok tcp) =>
                ⟨s3,
                  t2 ++ [Event.AddPortMapping gateway "tcp" 0 0 lifetime (Reply.ok tcp)]
                    ++ checkLifetime "TCP" lifetime tcp.assignedLifetime
                    ++ checkExternalPorts udp.assignedExternalPort tcp.assignedExternalPort,
                  tcp.assignedExternalPort, none⟩

/-! ## `KeepPortForward` -/

/-- Constant `refreshTimeout`: `45 * time.Second`. -/
def refreshTimeout : Duration := 45 * Second

/-- Slice `networkProtocols` of the renewal loop. -/
def networkProtocols : List String := ["udp", "tcp"]

/-- Result of running the renewal code: the final environment state, the trace,
the value of the local variable `port` when the code stops, and the returned
error.  `err = none` means the function has not returned (the loop is still
running when the fuel ends); Go's return value is never `nil` here. -/
structure KeepResult (σ : Type) where
  state : σ
  trace : List Event
  port : Nat
  err : Option Error

/-- The inner `for _, networkProtocol := range networkProtocols` loop of
`KeepPortForward`, with `internalPort = 0`, started with the held `port`. -/
def renewAll {σ : Type} (w : World σ) (gateway : Addr) :
    List String → σ → Nat → KeepResult σ
  | [], s, port => ⟨s, [], port, none⟩
  | networkProtocol :: rest, s, port =>
    match w.AddPortMapping s gateway networkProtocol 0 port lifetime with
    | (s1, Reply.failed err) =>
        ⟨s1, [Event.AddPortMapping gateway networkProtocol 0 port lifetime (Reply.failed err)],
          port, some (Error.wrap "adding port mapping" err)⟩
    | (s1, Reply.ok m) =>
        let lifetimeWarning : List Event :=
          if m.assignedLifetime ≠ lifetime then
            [Event.Warn (Msg.keepLifetimeDiffers m.assignedLifetime lifetime)]
          else []
        let portWarning : List Event :=
          if port ≠ m.assignedExternalPort then
            [Event.Warn (Msg.portChanged port m.assignedExternalPort)]
          else []
        let port1 : Nat :=
          if port ≠ m.assignedExternalPort then m.assignedExternalPort else port
        let r := renewAll w gateway rest s1 port1
        ⟨r.state,
          Event.AddPortMapping gateway networkProtocol 0 port lifetime (Reply.ok m)
            :: (lifetimeWarning ++ portWarning ++ r.trace),
          r.port, r.err⟩

/-- The outer `for` loop of `KeepPortForward`; one unit of fuel per iteration
(one `select`). -/
def keepLoop {σ : Type} (w : World σ) (gateway : Addr) : Nat → σ → Nat → KeepResult σ
  | 0, s, port => ⟨s, [], port, none⟩
  | fuel + 1, s, port =>
    match w.Select s with
    | (s1, some ctxErr) => ⟨s1, [Event.Select (some ctxErr)], port, some ctxErr⟩
    | (s1, none) =>
        let r := renewAll w gateway networkProtocols s1 port
        match r.err with
        | some err => ⟨r.state, Event.Select none :: r.trace, r.port, some err⟩
        | none =>
            let k := keepLoop w gateway fuel r.state r.port
            ⟨k.state, Event.Select none :: (r.trace ++ Event.Timer refreshTimeout :: k.trace),
              k.port, k.err⟩

/-- Source `Provider.KeepPortForward`: arm the timer, then loop. -/
def KeepPortForward {σ : Type} (w : World σ) (fuel : Nat) (s : σ) (port : Nat)
    (gateway : Addr) : KeepResult σ :=
  let k := keepLoop w gateway fuel s port
  ⟨k.state, Event.Timer refreshTimeout :: k.trace, k.port, k.err⟩

/-! ## A scripted gateway, used to run the code on concrete scenarios -/

/-- What happens during one `AddPortMapping` call of a scripted run. -/
inductive Step where
  | grant (externalPort : Nat) (assignedLifetime : Duration)
  | fail (err : Error)
  | cancelled
  deriving DecidableEq, Repr

/-- State of the scripted environment: whether the context has been cancelled,
what happens during each coming wait (`true`: the context is cancelled before
the timer fires) and during each coming `AddPortMapping` call. -/
structure Script where
  ctxCancelled : Bool
  waits : List Bool
  calls : List Step
  deriving DecidableEq, Repr

/-- The scripted environment.  The external address is always `203.0.113.7`.
A call scripted `cancelled` is one during which the context is cancelled: the
client gives up and reports the context's error.  Once the scripts are used
up, every wait ends with the timer and every call times out. -/
def scripted : World Script where
  ExternalAddress := fun s _ => (s, Reply.ok (0, ⟨0, 0xffffcb007107, Zone.z4⟩))
  AddPortMapping := fun s _ _ _ _ _ =>
    match s.calls with
    | [] => (s, Reply.failed (Error.other "timeout"))
    | Step.grant p l :: rest => ({ s with calls := rest }, Reply.ok ⟨0, 0, p, l⟩)
    | Step.fail e :: rest => ({ s with calls := rest }, Reply.failed e)
    | Step.cancelled :: rest =>
        ({ s with calls := rest, ctxCancelled := true }, Reply.failed Error.Canceled)
  Select := fun s =>
    if s.ctxCancelled then (s, some Error.Canceled)
    else
      match s.waits with
      | true :: rest => ({ s with waits := rest, ctxCancelled := true }, some Error.Canceled)
      | false :: rest => ({ s with waits := rest }, none)
      | [] => (s, none)

/-- The gateway address `10.2.0.1` used in the concrete scenarios. -/
def gatewayAddr : Addr := ⟨0, 0xffff0a020001, Zone.z4⟩

/-! ## `GetOpenVPNConnection` (Torguard) -/

/-- Go `net.IP`: a slice of bytes. -/
abbrev NetIP := List Nat

/-- Modelled from the spec: the constants `constants.UDP` and `constants.TCP`
of package `internal/constants`, which is not among the sources; the spec's
`Protocol (UDP|TCP)`. -/
inductive NetworkProtocol where
  | UDP
  | TCP
  deriving DecidableEq, Repr

/-- A catalog entry (`models.TorguardServer`): attributes used for filtering and
the ordered IP addresses. -/
structure Server where
  Country : String
  City : String
  Hostname : String
  IPs : List NetIP
  deriving DecidableEq, Repr

/-- The `OpenVPN` part of a selection that the code reads. -/
structure OpenVPNSelection where
  TCP : Bool
  CustomPort : Nat
  deriving DecidableEq, Repr

/-- The fields of `configuration.ServerSelection` that the code reads;
`TargetIP = none` is Go's `nil`. -/
structure ServerSelection where
  OpenVPN : OpenVPNSelection
  TargetIP : Option NetIP
  deriving DecidableEq, Repr

/-- Go `models.OpenVPNConnection`. -/
structure OpenVPNConnection where
  IP : NetIP
  Port : Nat
  Protocol : NetworkProtocol
  deriving DecidableEq, Repr

/-- The injected random source: the values it yields, in order, and how many
of them have been drawn. -/
structure RandSource where
  draws : Nat → Nat
  used : Nat

/-- The provider.  Its method `filterServers` is not among the sources and is
taken as a parameter: it returns the filtered servers or an error. -/
structure Torguard where
  filterServers : ServerSelection → Reply (List Server)
  randSource : RandSource

/-- Result of `GetOpenVPNConnection`: Go's `(connection, err)`, where
`connection = none` stands for no connection being returned, and the random
source after the call. -/
structure ConnectionResult where
  connection : Option OpenVPNConnection
  err : Option Error
  randSource : RandSource

/-- Lines 12-15 of `connection.go`: the resolved protocol. -/
def resolveProtocol (selection : ServerSelection) : NetworkProtocol :=
  if selection.OpenVPN.TCP then NetworkProtocol.TCP else NetworkProtocol.UDP

/-- Lines 17-20 of `connection.go`: the resolved port. -/
def resolvePort (selection : ServerSelection) : Nat :=
  if selection.OpenVPN.CustomPort > 0 then selection.OpenVPN.CustomPort else 1912

/-- Lines 27-37 of `connection.go`: the two nested loops appending to
`connections`, which starts as the nil slice. -/
def appendConnections (servers : List Server) (port : Nat) (protocol : NetworkProtocol) :
    List OpenVPNConnection :=
  servers.foldl
    (fun connections server =>
      server.IPs.foldl
        (fun connections IP => connections ++ [⟨IP, port, protocol⟩])
        connections)
    []

/-- The candidate list `connections` that `GetOpenVPNConnection` builds from
the filtered servers. -/
def candidates (selection : ServerSelection) (servers : List Server) :
    List OpenVPNConnection :=
  appendConnections servers (resolvePort selection) (resolveProtocol selection)

/-- The reference candidate list, written from the specification: one tuple
per (server, IP) pair, in server order and then per-server IP order, with the
port and protocol resolution rules spelled out. -/
def referenceCandidates (selection : ServerSelection) :
    List Server → List OpenVPNConnection
  | [] => []
  | server :: rest =>
      server.IPs.map
          (fun ip =>
            { IP := ip,
              Port := if selection.OpenVPN.CustomPort ≠ 0 then selection.OpenVPN.CustomPort
                      else 1912,
              Protocol := if selection.OpenVPN.TCP = true then NetworkProtocol.TCP
                          else NetworkProtocol.UDP })
        ++ referenceCandidates selection rest

/-- Modelled from the spec: `utils.GetTargetIPOpenVPNConnection` of package
`internal/provider/utils`, which is not among the sources.  "Scan candidates
for an exact IP match (ignoring port/protocol) and return the first match.
Fails with `TargetIPNotFoundError` if no candidate carries that address." -/
def GetTargetIPOpenVPNConnection :
    List OpenVPNConnection → NetIP → Reply OpenVPNConnection
  | [], _ => Reply.failed Error.ErrTargetIPNotFound
  | connection :: rest, targetIP =>
      if connection.IP = targetIP then Reply.ok connection
      else GetTargetIPOpenVPNConnection rest targetIP

/-- Modelled from the spec: `utils.PickRandomOpenVPNConnection` of package
`internal/provider/utils`, which is not among the sources.  "Choose uniformly
at random among all candidates using an injected random source": the next
value of the source, reduced modulo the number of candidates, is the index of
the chosen one.  With no candidate there is nothing to choose and no
connection results. -/
def PickRandomOpenVPNConnection (connections : List OpenVPNConnection)
    (source : RandSource) : Option OpenVPNConnection × RandSource :=
  (connections.get? (source.draws source.used % connections.length),
    { source with used := source.used + 1 })

/-- Source `Torguard.GetOpenVPNConnection`. -/
def GetOpenVPNConnection (t : Torguard) (selection : ServerSelection) :
    ConnectionResult :=
  match t.filterServers selection with
  | Reply.failed err => ⟨none, some err, t.randSource⟩
  | Reply.ok servers =>
      let connections := candidates selection servers
      match selection.TargetIP with
      | some targetIP =>
          match GetTargetIPOpenVPNConnection connections targetIP with
          | Reply.ok connection => ⟨some connection, none, t.randSource⟩
          | Reply.failed err => ⟨none, some err, t.randSource⟩
      | none =>
          let picked := PickRandomOpenVPNConnection connections t.randSource
          ⟨picked.1, none, picked.2⟩

/-! ## Reading a trace -/

/-- The warnings of a trace, in order. -/
def warnings : List Event → List Msg
  | [] => []
  | Event.Warn msg :: rest => msg :: warnings rest
  | _ :: rest => warnings rest

/-- The held port after a trace that started with `port` held, written from
the specification: each successful reply makes the held port the external
port assigned in that reply. -/
def heldAfter (port : Nat) : List Event → Nat
  | [] => port
  | Event.AddPortMapping _ _ _ _ _ (Reply.ok m) :: rest =>
      heldAfter m.assignedExternalPort rest
  | _ :: rest => heldAfter port rest

/-- The port-change warnings a trace must carry, written from the
specification: one for each successful reply whose assigned external port
differs from the port held just before it. -/
def expectedPortChanges (port : Nat) : List Event → List Msg
  | [] => []
  | Event.AddPortMapping _ _ _ _ _ (Reply.ok m) :: rest =>
      (if m.assignedExternalPort ≠ port then [Msg.portChanged port m.assignedExternalPort]
        else [])
        ++ expectedPortChanges m.assignedExternalPort rest
  | _ :: rest => expectedPortChanges port rest

/-- The port-change warnings a trace carries, in order. -/
def portChangeWarnings : List Event → List Msg
  | [] => []
  | Event.Warn (Msg.portChanged old new) :: rest =>
      Msg.portChanged old new :: portChangeWarnings rest
  | _ :: rest => portChangeWarnings rest

/-- The lifetimes granted by the successful replies of a trace, in order. -/
def grantedLifetimes : List Event → List Duration
  | [] => []
  | Event.AddPortMapping _ _ _ _ _ (Reply.ok m) :: rest =>
      m.assignedLifetime :: grantedLifetimes rest
  | _ :: rest => grantedLifetimes rest

/-- The lifetime warnings of the renewal loop that a trace carries, in order. -/
def keepLifetimeWarnings : List Event → List Msg
  | [] => []
  | Event.Warn (Msg.keepLifetimeDiffers actual requested) :: rest =>
      Msg.keepLifetimeDiffers actual requested :: keepLifetimeWarnings rest
  | _ :: rest => keepLifetimeWarnings rest

/-- The protocols of the mapping requests of a trace, in order. -/
def requestProtocols : List Event → List String
  | [] => []
  | Event.AddPortMapping _ protocol _ _ _ _ :: rest => protocol :: requestProtocols rest
  | _ :: rest => requestProtocols rest

/-- The error with which `KeepPortForward` must return after this event, if the
event is a failed mapping request. -/
def failedRenewal : Event → Option Error
  | Event.AddPortMapping _ _ _ _ _ (Reply.failed err) =>
      some (Error.wrap "adding port mapping" err)
  | _ => none

/-- The error with which `KeepPortForward` must return after this event, if the
event is a `select` that took the `ctx.Done()` case. -/
def selectDone : Event → Option Error
  | Event.Select (some ctxErr) => some ctxErr
  | _ => none

/-- Every event of the trace satisfies `P held`, with `held` the port held just
before the event when `port` is held at the start of the trace. -/
def EachHeld (P : Nat → Event → Prop) : Nat → List Event → Prop
  | _, [] => True
  | port, e :: rest => P port e ∧ EachHeld P (heldAfter port [e]) rest

/-- An event for which `final` gives an error is the last of the trace, and the
run has returned that error. -/
def StopsAt (final : Event → Option Error) (err : Option Error) : List Event → Prop
  | [] => True
  | e :: rest => (∀ x, final e = some x → rest = [] ∧ err = some x) ∧ StopsAt final err rest

/-- What a mapping request of the renewal loop must ask, with `held` the port
held when it is issued. -/
def AsksHeld (gateway : Addr) (held : Nat) (e : Event) : Prop :=
  ∀ g p ip ep lt reply, e = Event.AddPortMapping g p ip ep lt reply →
    g = gateway ∧ ip = 0 ∧ ep = held ∧ lt = 60 * Second

/-! ## Theorems: `PortForward` -/

theorem warnings_append (a b : List Event) :
    warnings (a ++ b) = warnings a ++ warnings b := by
  induction a with
  | nil => rfl
  | cons e rest ih => cases e <;> simp [warnings, ih]

theorem warnings_checkLifetime (protocol : String) (requested actual : Duration) :
    warnings (checkLifetime protocol requested actual) =
      if actual ≠ requested then [Msg.lifetimeDiffers (ToUpper protocol) actual requested]
      else [] := by
  unfold checkLifetime
  by_cases h : requested = actual
  · simp [h, warnings]
  · have h2 : ¬ actual = requested := fun e => h e.symm
    simp [h, h2, warnings]

theorem warnings_checkExternalPorts (udpPort tcpPort : Nat) :
    warnings (checkExternalPorts udpPort tcpPort) =
      if udpPort ≠ tcpPort then [Msg.portsDiffer udpPort tcpPort] else [] := by
  unfold checkExternalPorts
  by_cases h : udpPort = tcpPort <;> simp [h, warnings]

/-- C1. For a valid gateway, when the external-address query, the UDP mapping
request and the TCP mapping request all succeed, `PortForward` returns the TCP
grant's external port with a nil error, whatever the UDP grant assigned. -/
theorem PortForward_returns_tcp_port {σ : Type} (w : World σ) (s s1 s2 s3 : σ)
    (gateway : Addr) (epoch : Duration) (external : Addr) (udp tcp : Mapping)
    (hvalid : gateway.IsValid = true)
    (hext : w.ExternalAddress s gateway = (s1, Reply.ok (epoch, external)))
    (hudp : w.AddPortMapping s1 gateway "udp" 0 0 lifetime = (s2, Reply.ok udp))
    (htcp : w.AddPortMapping s2 gateway "tcp" 0 0 lifetime = (s3, Reply.ok tcp)) :
    (PortForward w s gateway).port = tcp.assignedExternalPort ∧
      (PortForward w s gateway).err = none := by
  simp [PortForward, hvalid, hext, hudp, htcp]

/-- Witness of C1: the gateway grants UDP 4000 and TCP 4001; 4001 is returned. -/
theorem PortForward_returns_tcp_port_witness :
    (PortForward scripted
        ⟨false, [], [Step.grant 4000 lifetime, Step.grant 4001 lifetime]⟩ gatewayAddr).port
        = 4001 ∧
      (PortForward scripted
        ⟨false, [], [Step.grant 4000 lifetime, Step.grant 4001 lifetime]⟩ gatewayAddr).err
        = none :=
  PortForward_returns_tcp_port scripted
    ⟨false, [], [Step.grant 4000 lifetime, Step.grant 4001 lifetime]⟩
    ⟨false, [], [Step.grant 4000 lifetime, Step.grant 4001 lifetime]⟩
    ⟨false, [], [Step.grant 4001 lifetime]⟩
    ⟨false, [], []⟩
    gatewayAddr 0 ⟨0, 0xffffcb007107, Zone.z4⟩ ⟨0, 0, 4000, lifetime⟩ ⟨0, 0, 4001, lifetime⟩
    (by decide) rfl rfl rfl

/-- C2. On a successful run of `PortForward` the warnings logged are exactly:
the UDP lifetime warning if the UDP lifetime differs from the requested 60
seconds, then the TCP lifetime warning if the TCP lifetime differs from it,
then the port-mismatch warning if and only if the two external ports differ. -/
theorem PortForward_warnings {σ : Type} (w : World σ) (s s1 s2 s3 : σ)
    (gateway : Addr) (epoch : Duration) (external : Addr) (udp tcp : Mapping)
    (hvalid : gateway.IsValid = true)
    (hext : w.ExternalAddress s gateway = (s1, Reply.ok (epoch, external)))
    (hudp : w.AddPortMapping s1 gateway "udp" 0 0 lifetime = (s2, Reply.ok udp))
    (htcp : w.AddPortMapping s2 gateway "tcp" 0 0 lifetime = (s3, Reply.ok tcp)) :
    lifetime = 60 * Second ∧
    warnings (PortForward w s gateway).trace =
      (if udp.assignedLifetime ≠ lifetime then
          [Msg.lifetimeDiffers "UDP" udp.assignedLifetime lifetime] else [])
      ++ (if tcp.assignedLifetime ≠ lifetime then
          [Msg.lifetimeDiffers "TCP" tcp.assignedLifetime lifetime] else [])
      ++ (if udp.assignedExternalPort ≠ tcp.assignedExternalPort then
          [Msg.portsDiffer udp.assignedExternalPort tcp.assignedExternalPort] else []) := by
  have hU : ToUpper "UDP" = "UDP" := by decide
  have hT : ToUpper "TCP" = "TCP" := by decide
  refine ⟨rfl, ?_⟩
  simp [PortForward, hvalid, hext, hudp, htcp, warnings_append, warnings_checkLifetime,
    warnings_checkExternalPorts, hU, hT, warnings]

/-- Witness of C2: grants UDP 4000/30s and TCP 4000/60s give exactly one
warning, the UDP lifetime one, and no port-mismatch warning. -/
theorem PortForward_warnings_witness :
    warnings (PortForward scripted
        ⟨false, [], [Step.grant 4000 (30 * Second), Step.grant 4000 lifetime]⟩
        gatewayAddr).trace
      = [Msg.lifetimeDiffers "UDP" (30 * Second) lifetime] :=
  (PortForward_warnings scripted
    ⟨false, [], [Step.grant 4000 (30 * Second), Step.grant 4000 lifetime]⟩
    ⟨false, [], [Step.grant 4000 (30 * Second), Step.grant 4000 lifetime]⟩
    ⟨false, [], [Step.grant 4000 lifetime]⟩
    ⟨false, [], []⟩
    gatewayAddr 0 ⟨0, 0xffffcb007107, Zone.z4⟩
    ⟨0, 0, 4000, 30 * Second⟩ ⟨0, 0, 4000, lifetime⟩
    (by decide) rfl rfl rfl).2

/-- C3, as stated, fails: the all-zero addresses `0.0.0.0` and `::` are not
non-zero addresses, yet they are initialized `Addr` values and pass the guard:
with either as gateway `PortForward` queries the gateway, requests both
mappings and returns the granted port with a nil error. -/
theorem unspecified_gateway_is_accepted :
    IPv4Unspecified.IsUnspecified = true ∧ IPv6Unspecified.IsUnspecified = true ∧
      (PortForward scripted
          ⟨false, [], [Step.grant 4000 lifetime, Step.grant 4000 lifetime]⟩
          IPv4Unspecified).port = 4000 ∧
      (PortForward scripted
          ⟨false, [], [Step.grant 4000 lifetime, Step.grant 4000 lifetime]⟩
          IPv4Unspecified).err = none ∧
      (PortForward scripted
          ⟨false, [], [Step.grant 4000 lifetime, Step.grant 4000 lifetime]⟩
          IPv4Unspecified).trace
        = [Event.ExternalAddress IPv4Unspecified (Reply.ok (0, ⟨0, 0xffffcb007107, Zone.z4⟩)),
           Event.Info (Msg.externalIPv4 ⟨0, 0xffffcb007107, Zone.z4⟩),
           Event.AddPortMapping IPv4Unspecified "udp" 0 0 lifetime
             (Reply.ok ⟨0, 0, 4000, lifetime⟩),
           Event.AddPortMapping IPv4Unspecified "tcp" 0 0 lifetime
             (Reply.ok ⟨0, 0, 4000, lifetime⟩)] ∧
      (PortForward scripted
          ⟨false, [], [Step.grant 4000 lifetime, Step.grant 4000 lifetime]⟩
          IPv6Unspecified).port = 4000 ∧
      (PortForward scripted
          ⟨false, [], [Step.grant 4000 lifetime, Step.grant 4000 lifetime]⟩
          IPv6Unspecified).err = none := by
  decide

/-- C3, amended. The guard of `PortForward` rejects exactly the zero
(uninitialized) `Addr`.  For that gateway `PortForward` fails with
`ErrGatewayIPNotValid` and port 0 before any exchange: the trace is empty (no
query, no mapping request, no log line) and the environment is untouched.
Every other address, `0.0.0.0` and `::` included, passes the guard: the first
thing `PortForward` does is the external-address query to that gateway. -/
theorem PortForward_invalid_gateway {σ : Type} (w : World σ) (s : σ) (gateway : Addr) :
    (gateway.IsValid = false ↔ gateway.z = Zone.z0) ∧
      (gateway.z = Zone.z0 →
        (PortForward w s gateway).port = 0 ∧
          (PortForward w s gateway).err = some (Error.wrap "" Error.ErrGatewayIPNotValid) ∧
          (∀ e, (PortForward w s gateway).err = some e →
            Error.Is e Error.ErrGatewayIPNotValid = true) ∧
          (PortForward w s gateway).trace = [] ∧
          (PortForward w s gateway).state = s) ∧
      (gateway.z ≠ Zone.z0 →
        (PortForward w s gateway).trace.head?
          = some (Event.ExternalAddress gateway (w.ExternalAddress s gateway).2)) := by
  have hguard : gateway.IsValid = false ↔ gateway.z = Zone.z0 := by
    simp [Addr.IsValid]
  refine ⟨hguard, ?_, ?_⟩
  · intro hz
    have hinvalid : gateway.IsValid = false := hguard.mpr hz
    simp [PortForward, hinvalid, Error.Is]
  · intro hz
    have hvalid : gateway.IsValid = true := by
      cases hv : gateway.IsValid with
      | true => rfl
      | false => exact absurd (hguard.mp hv) hz
    rcases hext : w.ExternalAddress s gateway with ⟨s1, reply⟩
    cases reply with
    | failed err => simp [PortForward, hvalid, hext]
    | ok value =>
        obtain ⟨epoch, external⟩ := value
        rcases hudp : w.AddPortMapping s1 gateway "udp" 0 0 lifetime with ⟨s2, udpReply⟩
        cases udpReply with
        | failed err => simp [PortForward, hvalid, hext, hudp]
        | ok udp =>
            rcases htcp : w.AddPortMapping s2 gateway "tcp" 0 0 lifetime with ⟨s3, tcpReply⟩
            cases tcpReply <;> simp [PortForward, hvalid, hext, hudp, htcp]

/-- Witness of C3 (amended): the zero `Addr` as gateway is refused with an empty
trace; `0.0.0.0` as gateway is queried. -/
theorem PortForward_invalid_gateway_witness :
    (PortForward scripted ⟨false, [], [Step.grant 4000 lifetime]⟩ ⟨0, 0, Zone.z0⟩).port = 0 ∧
      (PortForward scripted ⟨false, [], [Step.grant 4000 lifetime]⟩ ⟨0, 0, Zone.z0⟩).trace = [] ∧
      (PortForward scripted ⟨false, [], [Step.grant 4000 lifetime]⟩ IPv4Unspecified).trace.head?
        = some (Event.ExternalAddress IPv4Unspecified
            (Reply.ok (0, ⟨0, 0xffffcb007107, Zone.z4⟩))) :=
  have h := (PortForward_invalid_gateway scripted ⟨false, [], [Step.grant 4000 lifetime]⟩
    ⟨0, 0, Zone.z0⟩).2.1 rfl
  ⟨h.1, h.2.2.2.1,
    (PortForward_invalid_gateway scripted ⟨false, [], [Step.grant 4000 lifetime]⟩
      IPv4Unspecified).2.2 (by decide)⟩

/-! ## Theorems: the candidate list -/

theorem foldl_append_singleton {α β : Type} (f : α → β) (xs : List α) (acc : List β) :
    xs.foldl (fun connections x => connections ++ [f x]) acc = acc ++ xs.map f := by
  induction xs generalizing acc with
  | nil => simp
  | cons x rest ih => simp [ih]

theorem resolvePort_eq (selection : ServerSelection) :
    resolvePort selection =
      if selection.OpenVPN.CustomPort ≠ 0 then selection.OpenVPN.CustomPort else 1912 := by
  unfold resolvePort
  by_cases h : selection.OpenVPN.CustomPort = 0
  · simp [h]
  · simp [h, Nat.pos_of_ne_zero h]

theorem appendConnections_eq_reference (selection : ServerSelection) (servers : List Server)
    (acc : List OpenVPNConnection) :
    servers.foldl
        (fun connections server =>
          server.IPs.foldl
            (fun connections IP =>
              connections ++ [⟨IP, resolvePort selection, resolveProtocol selection⟩])
            connections)
        acc
      = acc ++ referenceCandidates selection servers := by
  induction servers generalizing acc with
  | nil => simp [referenceCandidates]
  | cons server rest ih =>
      rw [List.foldl_cons, ih, foldl_append_singleton]
      simp [referenceCandidates, resolvePort_eq, resolveProtocol]

theorem referenceCandidates_length (selection : ServerSelection) (servers : List Server) :
    (referenceCandidates selection servers).length
      = (servers.map (fun server => server.IPs.length)).sum := by
  induction servers with
  | nil => rfl
  | cons server rest ih => simp [referenceCandidates, ih]

theorem referenceCandidates_mem (selection : ServerSelection) (servers : List Server)
    (c : OpenVPNConnection) (hc : c ∈ referenceCandidates selection servers) :
    c.Port = (if selection.OpenVPN.CustomPort ≠ 0 then selection.OpenVPN.CustomPort else 1912) ∧
      c.Protocol = (if selection.OpenVPN.TCP = true then NetworkProtocol.TCP
                    else NetworkProtocol.UDP) := by
  induction servers with
  | nil => simp [referenceCandidates] at hc
  | cons server rest ih =>
      simp only [referenceCandidates, List.mem_append, List.mem_map] at hc
      rcases hc with ⟨ip, _, rfl⟩ | hrest
      · exact ⟨rfl, rfl⟩
      · exact ih hrest

theorem candidates_reference (selection : ServerSelection) (servers : List Server) :
    candidates selection servers = referenceCandidates selection servers := by
  unfold candidates appendConnections
  rw [appendConnections_eq_reference]
  simp

/-- C4. The candidate list built by `GetOpenVPNConnection` from the filtered
servers equals the reference list (one tuple per (server, IP) pair in server
order then IP order, port = custom port if non-zero else 1912, protocol = TCP
if requested else UDP); its length is the sum of the servers' IP counts; with
custom port 51820 and TCP requested every candidate is 51820/TCP. -/
theorem candidates_eq_reference (selection : ServerSelection) (servers : List Server) :
    candidates selection servers = referenceCandidates selection servers ∧
      (candidates selection servers).length
        = (servers.map (fun server => server.IPs.length)).sum ∧
      (selection.OpenVPN.CustomPort = 51820 → selection.OpenVPN.TCP = true →
        ∀ c ∈ candidates selection servers,
          c.Port = 51820 ∧ c.Protocol = NetworkProtocol.TCP) := by
  have heq := candidates_reference selection servers
  refine ⟨heq, ?_, ?_⟩
  · rw [heq, referenceCandidates_length]
  · intro hport htcp c hc
    rw [heq] at hc
    have h := referenceCandidates_mem selection servers c hc
    simpa [hport, htcp] using h

/-- Witness of C4: two servers with two and one addresses, custom port 51820
over TCP: three candidates, in order, all on 51820/TCP. -/
theorem candidates_eq_reference_witness :
    candidates ⟨⟨true, 51820⟩, none⟩
        [⟨"Sweden", "Stockholm", "se.example", [[10, 0, 0, 1], [10, 0, 0, 2]]⟩,
         ⟨"Norway", "Oslo", "no.example", [[10, 0, 1, 1]]⟩]
      = [⟨[10, 0, 0, 1], 51820, NetworkProtocol.TCP⟩,
         ⟨[10, 0, 0, 2], 51820, NetworkProtocol.TCP⟩,
         ⟨[10, 0, 1, 1], 51820, NetworkProtocol.TCP⟩] ∧
      ∀ c ∈ candidates ⟨⟨true, 51820⟩, none⟩
          [⟨"Sweden", "Stockholm", "se.example", [[10, 0, 0, 1], [10, 0, 0, 2]]⟩,
           ⟨"Norway", "Oslo", "no.example", [[10, 0, 1, 1]]⟩],
        c.Port = 51820 ∧ c.Protocol = NetworkProtocol.TCP :=
  ⟨by decide,
    (candidates_eq_reference ⟨⟨true, 51820⟩, none⟩
      [⟨"Sweden", "Stockholm", "se.example", [[10, 0, 0, 1], [10, 0, 0, 2]]⟩,
       ⟨"Norway", "Oslo", "no.example", [[10, 0, 1, 1]]⟩]).2.2 rfl rfl⟩

/-! ## Theorems: choosing one candidate -/

theorem mem_referenceCandidates (selection : ServerSelection) (servers : List Server)
    (server : Server) (ip : NetIP) (hs : server ∈ servers) (hip : ip ∈ server.IPs) :
    ∃ c ∈ referenceCandidates selection servers, c.IP = ip := by
  induction servers with
  | nil => cases hs
  | cons first rest ih =>
      rcases List.mem_cons.mp hs with rfl | hrest
      · exact ⟨_, List.mem_append_left _ (List.mem_map.mpr ⟨ip, hip, rfl⟩), rfl⟩
      · obtain ⟨c, hc, hcip⟩ := ih hrest
        exact ⟨c, List.mem_append_right _ hc, hcip⟩

theorem GetTargetIPOpenVPNConnection_found (connections : List OpenVPNConnection)
    (targetIP : NetIP) (hex : ∃ c ∈ connections, c.IP = targetIP) :
    ∃ pre c post, connections = pre ++ c :: post ∧ (∀ d ∈ pre, d.IP ≠ targetIP) ∧
      c.IP = targetIP ∧ GetTargetIPOpenVPNConnection connections targetIP = Reply.ok c := by
  induction connections with
  | nil => obtain ⟨c, hc, _⟩ := hex; cases hc
  | cons first rest ih =>
      by_cases hfirst : first.IP = targetIP
      · exact ⟨[], first, rest, rfl, by simp, hfirst,
          by simp [GetTargetIPOpenVPNConnection, hfirst]⟩
      · obtain ⟨c, hc, hcip⟩ := hex
        have hin : c ∈ rest := by
          rcases List.mem_cons.mp hc with rfl | h
          · exact absurd hcip hfirst
          · exact h
        obtain ⟨pre, c1, post, hsplit, hpre, hc1, hres⟩ := ih ⟨c, hin, hcip⟩
        refine ⟨first :: pre, c1, post, by simp [hsplit], ?_, hc1, ?_⟩
        · intro d hd
          rcases List.mem_cons.mp hd with rfl | h
          · exact hfirst
          · exact hpre d h
        · simp [GetTargetIPOpenVPNConnection, hfirst, hres]

theorem GetTargetIPOpenVPNConnection_absent (connections : List OpenVPNConnection)
    (targetIP : NetIP) (hno : ∀ c ∈ connections, c.IP ≠ targetIP) :
    GetTargetIPOpenVPNConnection connections targetIP
      = Reply.failed Error.ErrTargetIPNotFound := by
  induction connections with
  | nil => rfl
  | cons first rest ih =>
      have hfirst : first.IP ≠ targetIP := hno first (List.mem_cons_self _ _)
      simp [GetTargetIPOpenVPNConnection, hfirst,
        ih (fun c hc => hno c (List.mem_cons_of_mem _ hc))]

/-- C5, as stated, fails: a filtered server set can be non-empty while its
servers carry no address.  Then the candidate list is empty, so no returned
connection can be an element of it, and the call returns no connection. -/
theorem random_mode_without_candidate :
    ([⟨"Sweden", "Stockholm", "se.example", []⟩] : List Server) ≠ [] ∧
      candidates ⟨⟨false, 0⟩, none⟩ [⟨"Sweden", "Stockholm", "se.example", []⟩] = [] ∧
      (GetOpenVPNConnection
          ⟨fun _ => Reply.ok [⟨"Sweden", "Stockholm", "se.example", []⟩], ⟨fun _ => 7, 0⟩⟩
          ⟨⟨false, 0⟩, none⟩).connection = none ∧
      ¬ ∃ c, (GetOpenVPNConnection
          ⟨fun _ => Reply.ok [⟨"Sweden", "Stockholm", "se.example", []⟩], ⟨fun _ => 7, 0⟩⟩
          ⟨⟨false, 0⟩, none⟩).connection = some c ∧
        c ∈ candidates ⟨⟨false, 0⟩, none⟩ [⟨"Sweden", "Stockholm", "se.example", []⟩] := by
  refine ⟨by simp, by decide, by decide, ?_⟩
  rintro ⟨c, _, hc⟩
  have hnil : candidates ⟨⟨false, 0⟩, none⟩ [⟨"Sweden", "Stockholm", "se.example", []⟩] = [] := by
    decide
  rw [hnil] at hc
  cases hc

/-- C5, amended. For every filtered server set in which some server carries
an address, every selection without a target IP and every state of the random
source, `GetOpenVPNConnection` returns, with a nil error, a connection that is
an element of the candidate list built from that filtered set. -/
theorem random_mode_picks_candidate (t : Torguard) (selection : ServerSelection)
    (servers : List Server)
    (hfilter : t.filterServers selection = Reply.ok servers)
    (hrandom : selection.TargetIP = none)
    (haddress : ∃ server ∈ servers, server.IPs ≠ []) :
    ∃ c, (GetOpenVPNConnection t selection).connection = some c ∧
      (GetOpenVPNConnection t selection).err = none ∧
      c ∈ candidates selection servers := by
  obtain ⟨server, hs, hips⟩ := haddress
  obtain ⟨ip, hip⟩ := List.exists_mem_of_ne_nil _ hips
  obtain ⟨c0, hc0, _⟩ := mem_referenceCandidates selection servers server ip hs hip
  have hmem : c0 ∈ candidates selection servers := by
    rw [(candidates_reference selection servers)]
    exact hc0
  have hlen : 0 < (candidates selection servers).length := List.length_pos_of_mem hmem
  have hlt : t.randSource.draws t.randSource.used % (candidates selection servers).length
      < (candidates selection servers).length := Nat.mod_lt _ hlen
  refine ⟨(candidates selection servers).get ⟨_, hlt⟩, ?_, ?_, List.get_mem _ _ _⟩
  · simp only [GetOpenVPNConnection, hfilter, hrandom, PickRandomOpenVPNConnection]
    exact List.get?_eq_get hlt
  · simp only [GetOpenVPNConnection, hfilter, hrandom]

/-- Witness of C5 (amended): one server with two addresses, the source yields 5:
the candidate at index 5 mod 2 = 1 is returned. -/
theorem random_mode_picks_candidate_witness :
    ∃ c, (GetOpenVPNConnection
          ⟨fun _ => Reply.ok [⟨"Sweden", "Stockholm", "se.example", [[10, 0, 0, 1], [10, 0, 0, 2]]⟩],
            ⟨fun _ => 5, 0⟩⟩
          ⟨⟨false, 0⟩, none⟩).connection = some c ∧
      (GetOpenVPNConnection
          ⟨fun _ => Reply.ok [⟨"Sweden", "Stockholm", "se.example", [[10, 0, 0, 1], [10, 0, 0, 2]]⟩],
            ⟨fun _ => 5, 0⟩⟩
          ⟨⟨false, 0⟩, none⟩).err = none ∧
      c ∈ candidates ⟨⟨false, 0⟩, none⟩
          [⟨"Sweden", "Stockholm", "se.example", [[10, 0, 0, 1], [10, 0, 0, 2]]⟩] :=
  random_mode_picks_candidate
    ⟨fun _ => Reply.ok [⟨"Sweden", "Stockholm", "se.example", [[10, 0, 0, 1], [10, 0, 0, 2]]⟩],
      ⟨fun _ => 5, 0⟩⟩
    ⟨⟨false, 0⟩, none⟩
    [⟨"Sweden", "Stockholm", "se.example", [[10, 0, 0, 1], [10, 0, 0, 2]]⟩]
    rfl rfl ⟨_, List.mem_singleton.mpr rfl, by decide⟩

/-- C6. For a selection that carries a target IP, `GetOpenVPNConnection` leaves
the random source untouched and its result does not depend on it; when the
filter yields servers and some candidate carries the target IP, the first such
candidate is returned with a nil error and its IP is the target IP; when no
candidate carries it, the call fails with `ErrTargetIPNotFound` and returns no
connection. -/
theorem target_mode_is_exact (t : Torguard) (selection : ServerSelection) (targetIP : NetIP)
    (htarget : selection.TargetIP = some targetIP) :
    (GetOpenVPNConnection t selection).randSource = t.randSource ∧
      (∀ source : RandSource,
        (GetOpenVPNConnection ⟨t.filterServers, source⟩ selection).connection
            = (GetOpenVPNConnection t selection).connection ∧
          (GetOpenVPNConnection ⟨t.filterServers, source⟩ selection).err
            = (GetOpenVPNConnection t selection).err) ∧
      (∀ servers, t.filterServers selection = Reply.ok servers →
        ((∃ c ∈ candidates selection servers, c.IP = targetIP) →
          ∃ pre c post, candidates selection servers = pre ++ c :: post ∧
            (∀ d ∈ pre, d.IP ≠ targetIP) ∧ c.IP = targetIP ∧
            (GetOpenVPNConnection t selection).connection = some c ∧
            (GetOpenVPNConnection t selection).err = none) ∧
        ((∀ c ∈ candidates selection servers, c.IP ≠ targetIP) →
          (GetOpenVPNConnection t selection).connection = none ∧
            (GetOpenVPNConnection t selection).err = some Error.ErrTargetIPNotFound)) := by
  refine ⟨?_, ?_, ?_⟩
  · cases hf : t.filterServers selection with
    | failed err => simp only [GetOpenVPNConnection, htarget, hf]
    | ok servers =>
        simp only [GetOpenVPNConnection, htarget, hf]
        split <;> rfl
  · intro source
    cases hf : t.filterServers selection with
    | failed err => simp only [GetOpenVPNConnection, htarget, hf, and_self]
    | ok servers =>
        simp only [GetOpenVPNConnection, htarget, hf]
        split <;> exact ⟨rfl, rfl⟩
  · intro servers hfilter
    constructor
    · intro hex
      obtain ⟨pre, c, post, hsplit, hpre, hc, hres⟩ :=
        GetTargetIPOpenVPNConnection_found (candidates selection servers) targetIP hex
      refine ⟨pre, c, post, hsplit, hpre, hc, ?_, ?_⟩ <;>
        simp [GetOpenVPNConnection, htarget, hfilter, hres]
    · intro hno
      have hres := GetTargetIPOpenVPNConnection_absent (candidates selection servers) targetIP hno
      constructor <;> simp [GetOpenVPNConnection, htarget, hfilter, hres]

/-- Witness of C6: the target `10.0.0.2` is the second of three candidates and
is returned; the random source is not advanced. -/
theorem target_mode_is_exact_witness :
    (GetOpenVPNConnection
        ⟨fun _ => Reply.ok [⟨"Sweden", "Stockholm", "se.example", [[10, 0, 0, 1], [10, 0, 0, 2]]⟩,
            ⟨"Norway", "Oslo", "no.example", [[10, 0, 1, 1]]⟩],
          ⟨fun _ => 5, 0⟩⟩
        ⟨⟨false, 0⟩, some [10, 0, 0, 2]⟩).randSource.used = 0 ∧
      (GetOpenVPNConnection
        ⟨fun _ => Reply.ok [⟨"Sweden", "Stockholm", "se.example", [[10, 0, 0, 1], [10, 0, 0, 2]]⟩,
            ⟨"Norway", "Oslo", "no.example", [[10, 0, 1, 1]]⟩],
          ⟨fun _ => 5, 0⟩⟩
        ⟨⟨false, 0⟩, some [10, 0, 0, 2]⟩).connection
        = some ⟨[10, 0, 0, 2], 1912, NetworkProtocol.UDP⟩ :=
  ⟨congrArg RandSource.used
      (target_mode_is_exact
        ⟨fun _ => Reply.ok [⟨"Sweden", "Stockholm", "se.example", [[10, 0, 0, 1], [10, 0, 0, 2]]⟩,
            ⟨"Norway", "Oslo", "no.example", [[10, 0, 1, 1]]⟩],
          ⟨fun _ => 5, 0⟩⟩
        ⟨⟨false, 0⟩, some [10, 0, 0, 2]⟩ [10, 0, 0, 2] rfl).1,
    by decide⟩


/-! ## Theorems: traces -/

theorem Error.Is_self (e : Error) : Error.Is e e = true := by
  cases e <;> simp [Error.Is]

theorem heldAfter_append (port : Nat) (a b : List Event) :
    heldAfter port (a ++ b) = heldAfter (heldAfter port a) b := by
  induction a generalizing port with
  | nil => rfl
  | cons e rest ih =>
      cases e with
      | AddPortMapping g p ip ep lt reply => cases reply <;> simp [heldAfter, ih]
      | _ => simp [heldAfter, ih]

theorem expectedPortChanges_append (port : Nat) (a b : List Event) :
    expectedPortChanges port (a ++ b)
      = expectedPortChanges port a ++ expectedPortChanges (heldAfter port a) b := by
  induction a generalizing port with
  | nil => rfl
  | cons e rest ih =>
      cases e with
      | AddPortMapping g p ip ep lt reply =>
          cases reply <;> simp [expectedPortChanges, heldAfter, ih]
      | _ => simp [expectedPortChanges, heldAfter, ih]

theorem portChangeWarnings_append (a b : List Event) :
    portChangeWarnings (a ++ b) = portChangeWarnings a ++ portChangeWarnings b := by
  induction a with
  | nil => rfl
  | cons e rest ih =>
      cases e with
      | Warn msg => cases msg <;> simp [portChangeWarnings, ih]
      | _ => simp [portChangeWarnings, ih]

theorem keepLifetimeWarnings_append (a b : List Event) :
    keepLifetimeWarnings (a ++ b) = keepLifetimeWarnings a ++ keepLifetimeWarnings b := by
  induction a with
  | nil => rfl
  | cons e rest ih =>
      cases e with
      | Warn msg => cases msg <;> simp [keepLifetimeWarnings, ih]
      | _ => simp [keepLifetimeWarnings, ih]

theorem grantedLifetimes_append (a b : List Event) :
    grantedLifetimes (a ++ b) = grantedLifetimes a ++ grantedLifetimes b := by
  induction a with
  | nil => rfl
  | cons e rest ih =>
      cases e with
      | AddPortMapping g p ip ep lt reply => cases reply <;> simp [grantedLifetimes, ih]
      | _ => simp [grantedLifetimes, ih]

theorem EachHeld_append (P : Nat → Event → Prop) (port : Nat) (a b : List Event) :
    EachHeld P port (a ++ b) ↔ EachHeld P port a ∧ EachHeld P (heldAfter port a) b := by
  induction a generalizing port with
  | nil => simp [EachHeld, heldAfter]
  | cons e rest ih =>
      have h : heldAfter port (e :: rest) = heldAfter (heldAfter port [e]) rest :=
        heldAfter_append port [e] rest
      rw [List.cons_append]
      simp only [EachHeld, ih, h, and_assoc]

theorem EachHeld_split (P : Nat → Event → Prop) (port : Nat) (pre post : List Event)
    (e : Event) (h : EachHeld P port (pre ++ e :: post)) : P (heldAfter port pre) e :=
  ((EachHeld_append P port pre (e :: post)).mp h).2.1

theorem StopsAt_append (final : Event → Option Error) (err : Option Error)
    (a b : List Event) (hquiet : ∀ e ∈ a, final e = none) (hb : StopsAt final err b) :
    StopsAt final err (a ++ b) := by
  induction a with
  | nil => exact hb
  | cons e rest ih =>
      refine ⟨?_, ih (fun x hx => hquiet x (List.mem_cons_of_mem _ hx))⟩
      intro x hx
      rw [hquiet e (List.mem_cons_self _ _)] at hx
      cases hx

theorem StopsAt_quiet (final : Event → Option Error) (err : Option Error)
    (a : List Event) (hquiet : ∀ e ∈ a, final e = none) : StopsAt final err a := by
  have h := StopsAt_append final err a [] hquiet trivial
  simpa using h

theorem StopsAt_split (final : Event → Option Error) (err : Option Error)
    (pre post : List Event) (e : Event) (x : Error)
    (h : StopsAt final err (pre ++ e :: post)) (hx : final e = some x) :
    post = [] ∧ err = some x := by
  induction pre with
  | nil => exact h.1 x hx
  | cons first rest ih => exact ih h.2

/-! ## Theorems: the renewal loop -/

/-- One pass of the inner loop after a successful first reply. -/
theorem renewAll_ok {σ : Type} (w : World σ) (gateway : Addr) (p : String)
    (rest : List String) (s s1 : σ) (port : Nat) (m : Mapping)
    (h : w.AddPortMapping s gateway p 0 port lifetime = (s1, Reply.ok m)) :
    (renewAll w gateway (p :: rest) s port).trace
        = Event.AddPortMapping gateway p 0 port lifetime (Reply.ok m)
          :: ((if m.assignedLifetime ≠ lifetime then
                [Event.Warn (Msg.keepLifetimeDiffers m.assignedLifetime lifetime)] else [])
              ++ (if port ≠ m.assignedExternalPort then
                [Event.Warn (Msg.portChanged port m.assignedExternalPort)] else [])
              ++ (renewAll w gateway rest s1 m.assignedExternalPort).trace) ∧
      (renewAll w gateway (p :: rest) s port).port
        = (renewAll w gateway rest s1 m.assignedExternalPort).port ∧
      (renewAll w gateway (p :: rest) s port).err
        = (renewAll w gateway rest s1 m.assignedExternalPort).err ∧
      (renewAll w gateway (p :: rest) s port).state
        = (renewAll w gateway rest s1 m.assignedExternalPort).state := by
  have hport : (if port ≠ m.assignedExternalPort then m.assignedExternalPort else port)
      = m.assignedExternalPort := by
    by_cases hp : port = m.assignedExternalPort <;> simp [hp]
  simp [renewAll, h, hport]

/-- One pass of the inner loop after a failed first reply. -/
theorem renewAll_failed {σ : Type} (w : World σ) (gateway : Addr) (p : String)
    (rest : List String) (s s1 : σ) (port : Nat) (err : Error)
    (h : w.AddPortMapping s gateway p 0 port lifetime = (s1, Reply.failed err)) :
    renewAll w gateway (p :: rest) s port
      = ⟨s1, [Event.AddPortMapping gateway p 0 port lifetime (Reply.failed err)], port,
          some (Error.wrap "adding port mapping" err)⟩ := by
  simp only [renewAll, h]

theorem AsksHeld_request (gateway : Addr) (p : String) (port : Nat) (reply : Reply Mapping) :
    AsksHeld gateway port (Event.AddPortMapping gateway p 0 port lifetime reply) := by
  intro g p1 ip ep lt reply1 h
  cases h
  exact ⟨rfl, rfl, rfl, rfl⟩

theorem AsksHeld_other (gateway : Addr) (port : Nat) (e : Event)
    (h : requestProtocols [e] = []) : AsksHeld gateway port e := by
  intro g p1 ip ep lt reply1 he
  subst he
  simp [requestProtocols] at h

theorem renewAll_held {σ : Type} (w : World σ) (gateway : Addr) (protocols : List String)
    (s : σ) (port : Nat) :
    EachHeld (AsksHeld gateway) port (renewAll w gateway protocols s port).trace ∧
      heldAfter port (renewAll w gateway protocols s port).trace
        = (renewAll w gateway protocols s port).port ∧
      portChangeWarnings (renewAll w gateway protocols s port).trace
        = expectedPortChanges port (renewAll w gateway protocols s port).trace := by
  induction protocols generalizing s port with
  | nil => simp [renewAll, EachHeld, heldAfter, portChangeWarnings, expectedPortChanges]
  | cons p rest ih =>
      rcases h : w.AddPortMapping s gateway p 0 port lifetime with ⟨s1, reply⟩
      cases reply with
      | failed err =>
          rw [renewAll_failed w gateway p rest s s1 port err h]
          exact ⟨⟨AsksHeld_request gateway p port _, trivial⟩, rfl, rfl⟩
      | ok m =>
          obtain ⟨ht, hp, _, _⟩ := renewAll_ok w gateway p rest s s1 port m h
          obtain ⟨ih1, ih2, ih3⟩ := ih s1 m.assignedExternalPort
          rw [ht, hp]
          refine ⟨⟨AsksHeld_request gateway p port _, ?_⟩, ?_, ?_⟩
          · by_cases hl : m.assignedLifetime = lifetime <;>
            by_cases hq : port = m.assignedExternalPort <;>
            simp [hl, hq, heldAfter, EachHeld, ih1, AsksHeld_other, requestProtocols]
          · by_cases hl : m.assignedLifetime = lifetime <;>
            by_cases hq : port = m.assignedExternalPort <;>
            simp [hl, hq, heldAfter, ih2]
          · by_cases hl : m.assignedLifetime = lifetime <;>
            by_cases hq : port = m.assignedExternalPort <;>
            simp [hl, hq, heldAfter, portChangeWarnings, expectedPortChanges, ih3,
              expectedPortChanges_append, portChangeWarnings_append, eq_comm]

theorem renewAll_stops {σ : Type} (w : World σ) (gateway : Addr) (protocols : List String)
    (s : σ) (port : Nat) :
    StopsAt failedRenewal (renewAll w gateway protocols s port).err
        (renewAll w gateway protocols s port).trace ∧
      ((renewAll w gateway protocols s port).err = none →
        ∀ e ∈ (renewAll w gateway protocols s port).trace, failedRenewal e = none) ∧
      (∀ e ∈ (renewAll w gateway protocols s port).trace, selectDone e = none) ∧
      (∀ d, Event.Timer d ∉ (renewAll w gateway protocols s port).trace) := by
  induction protocols generalizing s port with
  | nil => simp [renewAll, StopsAt]
  | cons p rest ih =>
      rcases h : w.AddPortMapping s gateway p 0 port lifetime with ⟨s1, reply⟩
      cases reply with
      | failed err =>
          rw [renewAll_failed w gateway p rest s s1 port err h]
          simp [StopsAt, failedRenewal, selectDone]
      | ok m =>
          obtain ⟨ht, _, he, _⟩ := renewAll_ok w gateway p rest s s1 port m h
          obtain ⟨ih1, ih2, ih3, ih4⟩ := ih s1 m.assignedExternalPort
          rw [ht, he]
          have hquiet : ∀ (final : Event → Option Error),
              (∀ msg, final (Event.Warn msg) = none) →
              ∀ e ∈ ((if m.assignedLifetime ≠ lifetime then
                  [Event.Warn (Msg.keepLifetimeDiffers m.assignedLifetime lifetime)] else [])
                ++ (if port ≠ m.assignedExternalPort then
                  [Event.Warn (Msg.portChanged port m.assignedExternalPort)] else [])),
                final e = none := by
            intro final hfinal e hmem
            by_cases hl : m.assignedLifetime = lifetime <;>
            by_cases hq : port = m.assignedExternalPort <;>
            simp [hl, hq] at hmem
            · rw [hmem]; exact hfinal _
            · rw [hmem]; exact hfinal _
            · rcases hmem with hmem | hmem <;> (rw [hmem]; exact hfinal _)
          refine ⟨⟨by simp [failedRenewal], ?_⟩, ?_, ?_, ?_⟩
          · exact StopsAt_append _ _ _ _ (hquiet failedRenewal (fun _ => rfl)) ih1
          · intro hnone e hmem
            rcases List.mem_cons.mp hmem with rfl | hmem
            · rfl
            · rcases List.mem_append.mp hmem with hmem | hmem
              · exact hquiet failedRenewal (fun _ => rfl) e hmem
              · exact ih2 hnone e hmem
          · intro e hmem
            rcases List.mem_cons.mp hmem with rfl | hmem
            · rfl
            · rcases List.mem_append.mp hmem with hmem | hmem
              · exact hquiet selectDone (fun _ => rfl) e hmem
              · exact ih3 e hmem
          · intro d hmem
            rcases List.mem_cons.mp hmem with hd | hmem
            · cases hd
            · rcases List.mem_append.mp hmem with hmem | hmem
              · by_cases hl : m.assignedLifetime = lifetime <;>
                by_cases hq : port = m.assignedExternalPort <;>
                simp [hl, hq] at hmem
              · exact ih4 d hmem

theorem renewAll_lifetimes {σ : Type} (w : World σ) (gateway : Addr) (protocols : List String)
    (s : σ) (port : Nat) :
    keepLifetimeWarnings (renewAll w gateway protocols s port).trace
      = ((grantedLifetimes (renewAll w gateway protocols s port).trace).filter
          (fun granted => decide (granted ≠ lifetime))).map
          (fun granted => Msg.keepLifetimeDiffers granted lifetime) := by
  induction protocols generalizing s port with
  | nil => simp [renewAll, keepLifetimeWarnings, grantedLifetimes]
  | cons p rest ih =>
      rcases h : w.AddPortMapping s gateway p 0 port lifetime with ⟨s1, reply⟩
      cases reply with
      | failed err =>
          rw [renewAll_failed w gateway p rest s s1 port err h]
          simp [keepLifetimeWarnings, grantedLifetimes]
      | ok m =>
          obtain ⟨ht, _, _, _⟩ := renewAll_ok w gateway p rest s s1 port m h
          rw [ht]
          by_cases hl : m.assignedLifetime = lifetime <;>
          by_cases hq : port = m.assignedExternalPort <;>
          simp [hl, hq, keepLifetimeWarnings, grantedLifetimes, ih,
            keepLifetimeWarnings_append, grantedLifetimes_append]

theorem keepLoop_done {σ : Type} (w : World σ) (gateway : Addr) (fuel : Nat) (s s1 : σ)
    (port : Nat) (ctxErr : Error) (h : w.Select s = (s1, some ctxErr)) :
    keepLoop w gateway (fuel + 1) s port
      = ⟨s1, [Event.Select (some ctxErr)], port, some ctxErr⟩ := by
  simp only [keepLoop, h]

theorem keepLoop_failed {σ : Type} (w : World σ) (gateway : Addr) (fuel : Nat) (s s1 : σ)
    (port : Nat) (err : Error) (h : w.Select s = (s1, none))
    (hr : (renewAll w gateway networkProtocols s1 port).err = some err) :
    keepLoop w gateway (fuel + 1) s port
      = ⟨(renewAll w gateway networkProtocols s1 port).state,
          Event.Select none :: (renewAll w gateway networkProtocols s1 port).trace,
          (renewAll w gateway networkProtocols s1 port).port, some err⟩ := by
  simp only [keepLoop, h, hr]

theorem keepLoop_next {σ : Type} (w : World σ) (gateway : Addr) (fuel : Nat) (s s1 : σ)
    (port : Nat) (h : w.Select s = (s1, none))
    (hr : (renewAll w gateway networkProtocols s1 port).err = none) :
    keepLoop w gateway (fuel + 1) s port
      = ⟨(keepLoop w gateway fuel (renewAll w gateway networkProtocols s1 port).state
            (renewAll w gateway networkProtocols s1 port).port).state,
          Event.Select none :: ((renewAll w gateway networkProtocols s1 port).trace
            ++ Event.Timer refreshTimeout ::
              (keepLoop w gateway fuel (renewAll w gateway networkProtocols s1 port).state
                (renewAll w gateway networkProtocols s1 port).port).trace),
          (keepLoop w gateway fuel (renewAll w gateway networkProtocols s1 port).state
            (renewAll w gateway networkProtocols s1 port).port).port,
          (keepLoop w gateway fuel (renewAll w gateway networkProtocols s1 port).state
            (renewAll w gateway networkProtocols s1 port).port).err⟩ := by
  simp only [keepLoop, h, hr]

/-- The three ways one iteration of the outer loop can go. -/
theorem keepLoop_cases {σ : Type} (w : World σ) (gateway : Addr) (fuel : Nat) (s : σ)
    (port : Nat) :
    (∃ s1 ctxErr, keepLoop w gateway (fuel + 1) s port
        = ⟨s1, [Event.Select (some ctxErr)], port, some ctxErr⟩) ∨
    (∃ s1 err, (renewAll w gateway networkProtocols s1 port).err = some err ∧
      keepLoop w gateway (fuel + 1) s port
        = ⟨(renewAll w gateway networkProtocols s1 port).state,
            Event.Select none :: (renewAll w gateway networkProtocols s1 port).trace,
            (renewAll w gateway networkProtocols s1 port).port, some err⟩) ∨
    (∃ s1, (renewAll w gateway networkProtocols s1 port).err = none ∧
      keepLoop w gateway (fuel + 1) s port
        = ⟨(keepLoop w gateway fuel (renewAll w gateway networkProtocols s1 port).state
              (renewAll w gateway networkProtocols s1 port).port).state,
            Event.Select none :: ((renewAll w gateway networkProtocols s1 port).trace
              ++ Event.Timer refreshTimeout ::
                (keepLoop w gateway fuel (renewAll w gateway networkProtocols s1 port).state
                  (renewAll w gateway networkProtocols s1 port).port).trace),
            (keepLoop w gateway fuel (renewAll w gateway networkProtocols s1 port).state
              (renewAll w gateway networkProtocols s1 port).port).port,
            (keepLoop w gateway fuel (renewAll w gateway networkProtocols s1 port).state
              (renewAll w gateway networkProtocols s1 port).port).err⟩) := by
  rcases h : w.Select s with ⟨s1, done⟩
  cases done with
  | some ctxErr => exact Or.inl ⟨s1, ctxErr, keepLoop_done w gateway fuel s s1 port ctxErr h⟩
  | none =>
      cases hr : (renewAll w gateway networkProtocols s1 port).err with
      | some err =>
          exact Or.inr (Or.inl ⟨s1, err, hr, keepLoop_failed w gateway fuel s s1 port err h hr⟩)
      | none => exact Or.inr (Or.inr ⟨s1, hr, keepLoop_next w gateway fuel s s1 port h hr⟩)

theorem keepLoop_held {σ : Type} (w : World σ) (gateway : Addr) (fuel : Nat) (s : σ)
    (port : Nat) :
    EachHeld (AsksHeld gateway) port (keepLoop w gateway fuel s port).trace ∧
      heldAfter port (keepLoop w gateway fuel s port).trace
        = (keepLoop w gateway fuel s port).port ∧
      portChangeWarnings (keepLoop w gateway fuel s port).trace
        = expectedPortChanges port (keepLoop w gateway fuel s port).trace := by
  induction fuel generalizing s port with
  | zero => simp [keepLoop, EachHeld, heldAfter, portChangeWarnings, expectedPortChanges]
  | succ fuel ih =>
      rcases keepLoop_cases w gateway fuel s port with
        ⟨s1, ctxErr, h⟩ | ⟨s1, err, _, h⟩ | ⟨s1, _, h⟩
      · rw [h]
        simp [EachHeld, heldAfter, portChangeWarnings, expectedPortChanges, AsksHeld_other,
          requestProtocols]
      · rw [h]
        obtain ⟨r1, r2, r3⟩ := renewAll_held w gateway networkProtocols s1 port
        simp [EachHeld, heldAfter, portChangeWarnings, expectedPortChanges, AsksHeld_other,
          requestProtocols, r1, r2, r3]
      · rw [h]
        obtain ⟨r1, r2, r3⟩ := renewAll_held w gateway networkProtocols s1 port
        obtain ⟨k1, k2, k3⟩ := ih (renewAll w gateway networkProtocols s1 port).state
          (renewAll w gateway networkProtocols s1 port).port
        refine ⟨?_, ?_, ?_⟩
        · refine ⟨AsksHeld_other _ _ _ rfl, ?_⟩
          rw [EachHeld_append]
          refine ⟨by simpa [heldAfter] using r1, AsksHeld_other _ _ _ rfl, ?_⟩
          simpa [heldAfter, r2] using k1
        · simp only [heldAfter, heldAfter_append, r2, k2]
        · simp only [portChangeWarnings, expectedPortChanges, portChangeWarnings_append,
            expectedPortChanges_append, r2, r3, k3]

theorem keepLoop_stops {σ : Type} (w : World σ) (gateway : Addr) (fuel : Nat) (s : σ)
    (port : Nat) :
    StopsAt failedRenewal (keepLoop w gateway fuel s port).err
        (keepLoop w gateway fuel s port).trace ∧
      StopsAt selectDone (keepLoop w gateway fuel s port).err
        (keepLoop w gateway fuel s port).trace ∧
      (∀ d, Event.Timer d ∈ (keepLoop w gateway fuel s port).trace → d = refreshTimeout) := by
  induction fuel generalizing s port with
  | zero => simp [keepLoop, StopsAt]
  | succ fuel ih =>
      rcases keepLoop_cases w gateway fuel s port with
        ⟨s1, ctxErr, h⟩ | ⟨s1, err, herr, h⟩ | ⟨s1, hnone, h⟩
      · rw [h]
        simp [StopsAt, failedRenewal, selectDone]
      · rw [h]
        obtain ⟨r1, _, r3, r4⟩ := renewAll_stops w gateway networkProtocols s1 port
        rw [herr] at r1
        refine ⟨⟨by simp [failedRenewal], r1⟩, ⟨by simp [selectDone], ?_⟩, ?_⟩
        · exact StopsAt_quiet _ _ _ r3
        · intro d hd
          rcases List.mem_cons.mp hd with hd | hd
          · cases hd
          · exact absurd hd (r4 d)
      · rw [h]
        obtain ⟨_, r2, r3, r4⟩ := renewAll_stops w gateway networkProtocols s1 port
        obtain ⟨k1, k2, k3⟩ := ih (renewAll w gateway networkProtocols s1 port).state
          (renewAll w gateway networkProtocols s1 port).port
        refine ⟨⟨by simp [failedRenewal], ?_⟩, ⟨by simp [selectDone], ?_⟩, ?_⟩
        · exact StopsAt_append _ _ _ _ (r2 hnone) ⟨by simp [failedRenewal], k1⟩
        · exact StopsAt_append _ _ _ _ r3 ⟨by simp [selectDone], k2⟩
        · intro d hd
          rcases List.mem_cons.mp hd with hd | hd
          · cases hd
          · rcases List.mem_append.mp hd with hd | hd
            · exact absurd hd (r4 d)
            · rcases List.mem_cons.mp hd with hd | hd
              · cases hd; rfl
              · exact k3 d hd

theorem keepLoop_lifetimes {σ : Type} (w : World σ) (gateway : Addr) (fuel : Nat) (s : σ)
    (port : Nat) :
    keepLifetimeWarnings (keepLoop w gateway fuel s port).trace
      = ((grantedLifetimes (keepLoop w gateway fuel s port).trace).filter
          (fun granted => decide (granted ≠ lifetime))).map
          (fun granted => Msg.keepLifetimeDiffers granted lifetime) := by
  induction fuel generalizing s port with
  | zero => simp [keepLoop, keepLifetimeWarnings, grantedLifetimes]
  | succ fuel ih =>
      rcases keepLoop_cases w gateway fuel s port with
        ⟨s1, ctxErr, h⟩ | ⟨s1, err, _, h⟩ | ⟨s1, _, h⟩
      · rw [h]
        simp [keepLifetimeWarnings, grantedLifetimes]
      · rw [h]
        simp [keepLifetimeWarnings, grantedLifetimes, renewAll_lifetimes]
      · rw [h]
        simp [keepLifetimeWarnings, grantedLifetimes, renewAll_lifetimes, ih,
          keepLifetimeWarnings_append, grantedLifetimes_append]

/-! ## Theorems: `KeepPortForward` -/

/-- C7. In `KeepPortForward` every mapping request goes to the gateway with
internal port 0, lifetime 60 seconds and, as requested external port, the port
held when it is issued (the port assigned by the last successful reply, or
the initial port); the port held at the end is the one the last successful
reply assigned; the port-change warnings logged are exactly one per successful
reply whose assigned port differs from the port held before it; and in each
tick the first request is the UDP one and, after a successful UDP reply, the
TCP request of the same tick asks for the port that reply assigned. -/
theorem KeepPortForward_renews_held_port {σ : Type} (w : World σ) (fuel : Nat) (s : σ)
    (port : Nat) (gateway : Addr) :
    (∀ pre post g p ip ep lt reply,
      (KeepPortForward w fuel s port gateway).trace
          = pre ++ Event.AddPortMapping g p ip ep lt reply :: post →
        g = gateway ∧ ip = 0 ∧ ep = heldAfter port pre ∧ lt = 60 * Second) ∧
      (KeepPortForward w fuel s port gateway).port
        = heldAfter port (KeepPortForward w fuel s port gateway).trace ∧
      portChangeWarnings (KeepPortForward w fuel s port gateway).trace
        = expectedPortChanges port (KeepPortForward w fuel s port gateway).trace ∧
      (∀ s0 held, ∃ reply rest, (renewAll w gateway networkProtocols s0 held).trace
        = Event.AddPortMapping gateway "udp" 0 held lifetime reply :: rest) ∧
      (∀ s0 s1 held m, w.AddPortMapping s0 gateway "udp" 0 held lifetime = (s1, Reply.ok m) →
        ∃ reply, Event.AddPortMapping gateway "tcp" 0 m.assignedExternalPort lifetime reply
          ∈ (renewAll w gateway networkProtocols s0 held).trace) := by
  obtain ⟨k1, k2, k3⟩ := keepLoop_held w gateway fuel s port
  refine ⟨?_, ?_, ?_, ?_, ?_⟩
  · intro pre post g p ip ep lt reply hsplit
    have hall : EachHeld (AsksHeld gateway) port (KeepPortForward w fuel s port gateway).trace :=
      ⟨AsksHeld_other _ _ _ rfl, by simpa [heldAfter] using k1⟩
    rw [hsplit] at hall
    exact EachHeld_split _ port pre post _ hall g p ip ep lt reply rfl
  · simp only [KeepPortForward, heldAfter, k2]
  · simp only [KeepPortForward, portChangeWarnings, expectedPortChanges, k3]
  · intro s0 held
    rcases h : w.AddPortMapping s0 gateway "udp" 0 held lifetime with ⟨s1, reply⟩
    cases reply with
    | failed err =>
        exact ⟨_, [], by
          rw [networkProtocols, renewAll_failed w gateway "udp" ["tcp"] s0 s1 held err h]⟩
    | ok m =>
        exact ⟨_, _, (renewAll_ok w gateway "udp" ["tcp"] s0 s1 held m h).1⟩
  · intro s0 s1 held m h
    obtain ⟨ht, _, _, _⟩ := renewAll_ok w gateway "udp" ["tcp"] s0 s1 held m h
    obtain ⟨reply, rest, h2⟩ : ∃ reply rest,
        (renewAll w gateway ["tcp"] s1 m.assignedExternalPort).trace
          = Event.AddPortMapping gateway "tcp" 0 m.assignedExternalPort lifetime reply :: rest := by
      rcases h3 : w.AddPortMapping s1 gateway "tcp" 0 m.assignedExternalPort lifetime
        with ⟨s2, reply⟩
      cases reply with
      | failed err =>
          exact ⟨_, [], by
            rw [renewAll_failed w gateway "tcp" [] s1 s2 m.assignedExternalPort err h3]⟩
      | ok m2 =>
          exact ⟨_, _, (renewAll_ok w gateway "tcp" [] s1 s2 m.assignedExternalPort m2 h3).1⟩
    refine ⟨reply, ?_⟩
    rw [networkProtocols, ht, h2]
    simp

/-- Witness of C7: the gateway grants 4000 twice at the first tick and 4001 at
the second; after the second tick the held port is 4001, one change
4000 -> 4001 is logged, and the TCP request of the second tick asks for 4001. -/
theorem KeepPortForward_renews_held_port_witness :
    (KeepPortForward scripted 3
        ⟨false, [false, false, true],
          [Step.grant 4000 lifetime, Step.grant 4000 lifetime,
           Step.grant 4001 lifetime, Step.grant 4001 lifetime]⟩
        4000 gatewayAddr).port = 4001 ∧
      portChangeWarnings (KeepPortForward scripted 3
        ⟨false, [false, false, true],
          [Step.grant 4000 lifetime, Step.grant 4000 lifetime,
           Step.grant 4001 lifetime, Step.grant 4001 lifetime]⟩
        4000 gatewayAddr).trace = [Msg.portChanged 4000 4001] ∧
      ∃ reply, Event.AddPortMapping gatewayAddr "tcp" 0 4001 lifetime reply
        ∈ (renewAll scripted gatewayAddr networkProtocols
            ⟨false, [true], [Step.grant 4001 lifetime, Step.grant 4001 lifetime]⟩ 4000).trace :=
  have h := KeepPortForward_renews_held_port scripted 3
    ⟨false, [false, false, true],
      [Step.grant 4000 lifetime, Step.grant 4000 lifetime,
       Step.grant 4001 lifetime, Step.grant 4001 lifetime]⟩
    4000 gatewayAddr
  ⟨h.2.1.trans (by decide), h.2.2.1.trans (by decide),
    h.2.2.2.2 ⟨false, [true], [Step.grant 4001 lifetime, Step.grant 4001 lifetime]⟩
      ⟨false, [true], [Step.grant 4001 lifetime]⟩ 4000 ⟨0, 0, 4001, lifetime⟩ rfl⟩

/-- C8, as stated, fails for a cancellation during an in-flight renewal: the
context is cancelled while the UDP renewal of the first tick is in flight, the
client reports the context's error, and `KeepPortForward` returns it wrapped
as a renewal failure, not the context's own error. -/
theorem cancel_during_renewal_is_wrapped :
    (KeepPortForward scripted 3 ⟨false, [false], [Step.cancelled]⟩ 4000 gatewayAddr).trace
        = [Event.Timer refreshTimeout, Event.Select none,
           Event.AddPortMapping gatewayAddr "udp" 0 4000 lifetime
             (Reply.failed Error.Canceled)] ∧
      (KeepPortForward scripted 3 ⟨false, [false], [Step.cancelled]⟩ 4000
          gatewayAddr).state.ctxCancelled = true ∧
      (KeepPortForward scripted 3 ⟨false, [false], [Step.cancelled]⟩ 4000 gatewayAddr).err
        = some (Error.wrap "adding port mapping" Error.Canceled) ∧
      (KeepPortForward scripted 3 ⟨false, [false], [Step.cancelled]⟩ 4000 gatewayAddr).err
        ≠ some Error.Canceled := by
  decide

/-- C8, amended. When the `select` of `KeepPortForward` takes the `ctx.Done()`
case (the context is cancelled while waiting), the function returns the
context's own error, unwrapped, and that `select` is the last event of the run:
no renewal request follows.  In particular a cancellation during the first
wait returns with no request issued at all.  A cancellation during an in-flight
renewal is seen only through the failing client call: its error is returned
wrapped as "adding port mapping", which is neither `context.Canceled` nor
`context.DeadlineExceeded` itself but still matches the client's error under
`errors.Is`, and no request follows it. -/
theorem KeepPortForward_cancellation {σ : Type} (w : World σ) (fuel : Nat) (s : σ)
    (port : Nat) (gateway : Addr) :
    (∀ pre post ctxErr,
      (KeepPortForward w fuel s port gateway).trace
          = pre ++ Event.Select (some ctxErr) :: post →
        post = [] ∧ (KeepPortForward w fuel s port gateway).err = some ctxErr) ∧
      (∀ s1 ctxErr, w.Select s = (s1, some ctxErr) → 0 < fuel →
        (KeepPortForward w fuel s port gateway).err = some ctxErr ∧
          (KeepPortForward w fuel s port gateway).trace
            = [Event.Timer refreshTimeout, Event.Select (some ctxErr)]) ∧
      (∀ pre post g p ip ep lt clientErr,
        (KeepPortForward w fuel s port gateway).trace
            = pre ++ Event.AddPortMapping g p ip ep lt (Reply.failed clientErr) :: post →
          post = [] ∧
            (∃ e, (KeepPortForward w fuel s port gateway).err = some e ∧
              Error.Is e clientErr = true) ∧
            (KeepPortForward w fuel s port gateway).err ≠ some Error.Canceled ∧
            (KeepPortForward w fuel s port gateway).err ≠ some Error.DeadlineExceeded) := by
  obtain ⟨k1, k2, _⟩ := keepLoop_stops w gateway fuel s port
  refine ⟨?_, ?_, ?_⟩
  · intro pre post ctxErr hsplit
    have hall : StopsAt selectDone (KeepPortForward w fuel s port gateway).err
        (KeepPortForward w fuel s port gateway).trace := ⟨by simp [selectDone], k2⟩
    rw [hsplit] at hall
    exact StopsAt_split _ _ pre post _ ctxErr hall rfl
  · intro s1 ctxErr hsel hfuel
    obtain ⟨n, rfl⟩ : ∃ n, fuel = n + 1 := ⟨fuel - 1, by omega⟩
    simp [KeepPortForward, keepLoop_done w gateway n s s1 port ctxErr hsel]
  · intro pre post g p ip ep lt clientErr hsplit
    have hall : StopsAt failedRenewal (KeepPortForward w fuel s port gateway).err
        (KeepPortForward w fuel s port gateway).trace := ⟨by simp [failedRenewal], k1⟩
    rw [hsplit] at hall
    obtain ⟨hpost, herr⟩ := StopsAt_split _ _ pre post _
      (Error.wrap "adding port mapping" clientErr) hall rfl
    refine ⟨hpost, ⟨_, herr, ?_⟩, ?_, ?_⟩
    · simp [Error.Is, Error.Is_self]
    · rw [herr]; simp
    · rw [herr]; simp

/-- Witness of C8 (amended): the context is cancelled during the first wait; the
function returns `context.Canceled` itself and issues no request. -/
theorem KeepPortForward_cancellation_witness :
    (KeepPortForward scripted 2 ⟨false, [true], [Step.grant 4000 lifetime]⟩ 4000
        gatewayAddr).err = some Error.Canceled ∧
      (KeepPortForward scripted 2 ⟨false, [true], [Step.grant 4000 lifetime]⟩ 4000
        gatewayAddr).trace = [Event.Timer refreshTimeout, Event.Select (some Error.Canceled)] :=
  (KeepPortForward_cancellation scripted 2 ⟨false, [true], [Step.grant 4000 lifetime]⟩ 4000
    gatewayAddr).2.1 ⟨true, [], [Step.grant 4000 lifetime]⟩ Error.Canceled rfl (by decide)

/-- C9, as stated, fails: the gateway grants a lifetime of 30 seconds, the run
goes on without error and arms the same 45-second wait, which is not shorter
than the assigned lifetime. -/
theorem wait_exceeds_assigned_lifetime :
    (KeepPortForward scripted 1
        ⟨false, [false], [Step.grant 4000 (30 * Second), Step.grant 4000 (30 * Second)]⟩
        4000 gatewayAddr).trace
      = [Event.Timer (45 * Second), Event.Select none,
         Event.AddPortMapping gatewayAddr "udp" 0 4000 (60 * Second)
           (Reply.ok ⟨0, 0, 4000, 30 * Second⟩),
         Event.Warn (Msg.keepLifetimeDiffers (30 * Second) (60 * Second)),
         Event.AddPortMapping gatewayAddr "tcp" 0 4000 (60 * Second)
           (Reply.ok ⟨0, 0, 4000, 30 * Second⟩),
         Event.Warn (Msg.keepLifetimeDiffers (30 * Second) (60 * Second)),
         Event.Timer (45 * Second)] ∧
      (KeepPortForward scripted 1
        ⟨false, [false], [Step.grant 4000 (30 * Second), Step.grant 4000 (30 * Second)]⟩
        4000 gatewayAddr).err = none ∧
      ¬ (45 * Second < 30 * Second) := by
  decide

/-- C9, amended. Every wait that `KeepPortForward` arms is the fixed 45 seconds,
whatever lifetimes the gateway assigned: a tick whose UDP and TCP renewals are
both granted is followed by the 45-second wait and the next iteration of the
loop.  So for every wait and every grant of a run, the wait is strictly
shorter than the grant's assigned lifetime exactly when that lifetime is longer
than 45 seconds.  An assigned lifetime that differs from the requested 60
seconds is logged, once per such grant, and changes nothing else. -/
theorem KeepPortForward_fixed_wait {σ : Type} (w : World σ) (fuel : Nat)
    (s : σ) (port : Nat) (gateway : Addr) :
    refreshTimeout = 45 * Second ∧
      (∀ d, Event.Timer d ∈ (KeepPortForward w fuel s port gateway).trace →
        d = refreshTimeout) ∧
      (∀ d granted, Event.Timer d ∈ (KeepPortForward w fuel s port gateway).trace →
        granted ∈ grantedLifetimes (KeepPortForward w fuel s port gateway).trace →
        (d < granted ↔ 45 * Second < granted)) ∧
      (∀ s1 s2 s3 udp tcp, w.Select s = (s1, none) →
        w.AddPortMapping s1 gateway "udp" 0 port lifetime = (s2, Reply.ok udp) →
        w.AddPortMapping s2 gateway "tcp" 0 udp.assignedExternalPort lifetime
          = (s3, Reply.ok tcp) →
        (KeepPortForward w (fuel + 1) s port gateway).trace
          = Event.Timer refreshTimeout :: Event.Select none ::
            Event.AddPortMapping gateway "udp" 0 port lifetime (Reply.ok udp) ::
            ((if udp.assignedLifetime ≠ lifetime then
                [Event.Warn (Msg.keepLifetimeDiffers udp.assignedLifetime lifetime)] else [])
             ++ (if port ≠ udp.assignedExternalPort then
                [Event.Warn (Msg.portChanged port udp.assignedExternalPort)] else [])
             ++ Event.AddPortMapping gateway "tcp" 0 udp.assignedExternalPort lifetime
                  (Reply.ok tcp) ::
                ((if tcp.assignedLifetime ≠ lifetime then
                    [Event.Warn (Msg.keepLifetimeDiffers tcp.assignedLifetime lifetime)]
                  else [])
                 ++ (if udp.assignedExternalPort ≠ tcp.assignedExternalPort then
                    [Event.Warn (Msg.portChanged udp.assignedExternalPort
                      tcp.assignedExternalPort)]
                  else [])
                 ++ Event.Timer refreshTimeout ::
                    (keepLoop w gateway fuel s3 tcp.assignedExternalPort).trace))) ∧
      keepLifetimeWarnings (KeepPortForward w fuel s port gateway).trace
        = ((grantedLifetimes (KeepPortForward w fuel s port gateway).trace).filter
            (fun granted => decide (granted ≠ lifetime))).map
            (fun granted => Msg.keepLifetimeDiffers granted lifetime) := by
  obtain ⟨_, _, k3⟩ := keepLoop_stops w gateway fuel s port
  have htimer : ∀ d, Event.Timer d ∈ (KeepPortForward w fuel s port gateway).trace →
      d = refreshTimeout := by
    intro d hd
    rcases List.mem_cons.mp hd with hd | hd
    · cases hd; rfl
    · exact k3 d hd
  refine ⟨rfl, htimer, ?_, ?_, ?_⟩
  · intro d granted hd _
    rw [htimer d hd]
    exact Iff.rfl
  · intro s1 s2 s3 udp tcp hsel hudp htcp
    obtain ⟨u1, u2, u3, u4⟩ := renewAll_ok w gateway "udp" ["tcp"] s1 s2 port udp hudp
    obtain ⟨t1, t2, t3, t4⟩ :=
      renewAll_ok w gateway "tcp" [] s2 s3 udp.assignedExternalPort tcp htcp
    have hnil : renewAll w gateway [] s3 tcp.assignedExternalPort
        = ⟨s3, [], tcp.assignedExternalPort, none⟩ := rfl
    rw [hnil] at t1 t2 t3 t4
    rw [t1] at u1
    rw [t2] at u2
    rw [t3] at u3
    rw [t4] at u4
    have hnext := keepLoop_next w gateway fuel s s1 port hsel u3
    simp only [KeepPortForward, hnext]
    rw [show networkProtocols = ["udp", "tcp"] from rfl, u1, u2, u4]
    simp
  · simp only [KeepPortForward, keepLifetimeWarnings, grantedLifetimes]
    exact keepLoop_lifetimes w gateway fuel s port

/-- Witness of C9 (amended): the gateway grants 50 seconds instead of the
requested 60; both grants are logged as differing, the 45-second wait is
armed again after the tick, and it is shorter than the 50 seconds granted. -/
theorem KeepPortForward_fixed_wait_witness :
    (KeepPortForward scripted 1
        ⟨false, [false], [Step.grant 4000 (50 * Second), Step.grant 4000 (50 * Second)]⟩
        4000 gatewayAddr).trace
      = [Event.Timer (45 * Second), Event.Select none,
         Event.AddPortMapping gatewayAddr "udp" 0 4000 (60 * Second)
           (Reply.ok ⟨0, 0, 4000, 50 * Second⟩),
         Event.Warn (Msg.keepLifetimeDiffers (50 * Second) (60 * Second)),
         Event.AddPortMapping gatewayAddr "tcp" 0 4000 (60 * Second)
           (Reply.ok ⟨0, 0, 4000, 50 * Second⟩),
         Event.Warn (Msg.keepLifetimeDiffers (50 * Second) (60 * Second)),
         Event.Timer (45 * Second)] ∧
      (45 * Second : Duration) < 50 * Second :=
  ⟨((KeepPortForward_fixed_wait scripted 0
        ⟨false, [false], [Step.grant 4000 (50 * Second), Step.grant 4000 (50 * Second)]⟩
        4000 gatewayAddr).2.2.2.1
      ⟨false, [], [Step.grant 4000 (50 * Second), Step.grant 4000 (50 * Second)]⟩
      ⟨false, [], [Step.grant 4000 (50 * Second)]⟩
      ⟨false, [], []⟩
      ⟨0, 0, 4000, 50 * Second⟩ ⟨0, 0, 4000, 50 * Second⟩ rfl rfl rfl).trans (by decide),
    ((KeepPortForward_fixed_wait scripted 1
        ⟨false, [false], [Step.grant 4000 (50 * Second), Step.grant 4000 (50 * Second)]⟩
        4000 gatewayAddr).2.2.1 (45 * Second) (50 * Second) (by decide) (by decide)).mpr
      (by decide)⟩

/-- C10. In `KeepPortForward` a failed mapping request is the last event of the
run: the function has returned a non-nil error that wraps the client's error
(`errors.Is` finds it), and no request follows it, neither the TCP renewal of
the same tick nor any later tick. -/
theorem KeepPortForward_failed_renewal_ends {σ : Type} (w : World σ) (fuel : Nat) (s : σ)
    (port : Nat) (gateway : Addr) :
    (∀ pre post g p ip ep lt clientErr,
      (KeepPortForward w fuel s port gateway).trace
          = pre ++ Event.AddPortMapping g p ip ep lt (Reply.failed clientErr) :: post →
        post = [] ∧
          (KeepPortForward w fuel s port gateway).err
            = some (Error.wrap "adding port mapping" clientErr) ∧
          Error.Is (Error.wrap "adding port mapping" clientErr) clientErr = true) ∧
      (∀ s0 s1 held clientErr,
        w.AddPortMapping s0 gateway "udp" 0 held lifetime = (s1, Reply.failed clientErr) →
        (renewAll w gateway networkProtocols s0 held).trace
          = [Event.AddPortMapping gateway "udp" 0 held lifetime (Reply.failed clientErr)]) := by
  obtain ⟨k1, _, _⟩ := keepLoop_stops w gateway fuel s port
  refine ⟨?_, ?_⟩
  · intro pre post g p ip ep lt clientErr hsplit
    have hall : StopsAt failedRenewal (KeepPortForward w fuel s port gateway).err
        (KeepPortForward w fuel s port gateway).trace := ⟨by simp [failedRenewal], k1⟩
    rw [hsplit] at hall
    obtain ⟨hpost, herr⟩ := StopsAt_split _ _ pre post _
      (Error.wrap "adding port mapping" clientErr) hall rfl
    exact ⟨hpost, herr, by simp [Error.Is, Error.Is_self]⟩
  · intro s0 s1 held clientErr h
    rw [networkProtocols, renewAll_failed w gateway "udp" ["tcp"] s0 s1 held clientErr h]

/-- Witness of C10: the first tick's UDP renewal is granted, its TCP renewal
times out; the function returns the wrapped timeout and the failed request is
the last event. -/
theorem KeepPortForward_failed_renewal_ends_witness :
    (KeepPortForward scripted 5
        ⟨false, [false, false], [Step.grant 4000 lifetime, Step.fail (Error.other "timeout")]⟩
        4000 gatewayAddr).err
      = some (Error.wrap "adding port mapping" (Error.other "timeout")) :=
  ((KeepPortForward_failed_renewal_ends scripted 5
      ⟨false, [false, false], [Step.grant 4000 lifetime, Step.fail (Error.other "timeout")]⟩
      4000 gatewayAddr).1
    [Event.Timer refreshTimeout, Event.Select none,
      Event.AddPortMapping gatewayAddr "udp" 0 4000 lifetime (Reply.ok ⟨0, 0, 4000, lifetime⟩)]
    [] gatewayAddr "tcp" 0 4000 lifetime (Error.other "timeout") (by decide)).2.1

end Gluetun
